import Mathlib

set_option maxHeartbeats 1000000

namespace PokemonVcg

/-! Shallow embedding of the sequential single-agent battle lifecycle
controller of src/app.py. Pure helper functions are translated directly;
the stateful lifecycle loop body is embedded as one explicit step function
over an AppState record mirroring the module-level globals, with all
external observations of a cycle (the battle dict of the active agent,
task completion, activation and teardown outcomes, the random draw) packed
into a CycleEnv record fixed for the duration of that cycle. Print calls
are modelled as appends to a log field so that error-handling branches
remain observable. -/

/-- One battle object as exposed by the external battle client (a poke_env
Battle): an opaque battle tag and a finished flag. -/
structure Battle where
  battle_tag : String
  finished : Bool
deriving DecidableEq

/-- One instantiated automated player (a poke_env Player): its username and
the contents of its private battles dict, a mapping from battle tag to
battle object, modelled as an insertion-ordered association list. -/
structure Agent where
  username : String
  battles : List (String × Battle)
deriving DecidableEq

/-- src/app.py get_active_battle: the first non-finished battle of the
agent, returned only when it already carries a truthy (non-empty)
battle_tag; otherwise None (the code logs a WARN and returns None when the
first active battle has no tag yet). -/
def get_active_battle (agent : Agent) : Option Battle :=
  if agent.battles = [] then none
  else
    match (agent.battles.map Prod.snd).filter (fun b => !b.finished) with
    | [] => none
    | b :: _ => if b.battle_tag = "" then none else some b

/-- Stated from the claim wording, for comparison with the code: poll
returns the first match in the known-matches mapping that is not yet
finished, or None when no unfinished match exists. -/
def get_active_battle_claimed (agent : Agent) : Option Battle :=
  (agent.battles.map Prod.snd).find? (fun b => !b.finished)

/-- Head of a filtered list agrees with find?, with the common
post-processing of src/app.py applied on both sides. -/
theorem filter_head_eq_find (l : List Battle) (p : Battle → Bool) :
    (match l.filter p with
     | [] => (none : Option Battle)
     | b :: _ => if b.battle_tag = "" then none else some b) =
    (match l.find? p with
     | some b => if b.battle_tag = "" then none else some b
     | none => none) := by
  induction l with
  | nil => rfl
  | cons a t ih =>
    by_cases hp : p a
    · simp [List.filter_cons, List.find?_cons, hp]
    · simp [List.filter_cons, List.find?_cons, hp, ih]

/-! String machinery for src/app.py update_viewer_from_state. Python string
operations are modelled on the character list of the string. The two
globally-replacing rewrites are written with an explicit fuel argument
equal to the input length so that all recursions stay structural. -/

/-- Lowercasing of a Python string (str.lower restricted to ASCII use). -/
def pyLower (s : String) : String := ⟨s.data.map Char.toLower⟩

/-- Whether the first list is an initial segment of the second. -/
def leadsWith : List Char → List Char → Bool
  | [], _ => true
  | _ :: _, [] => false
  | a :: as, b :: bs => a == b && leadsWith as bs

/-- Python substring containment (the in operator on str). -/
def hasSub (needle : List Char) : List Char → Bool
  | [] => leadsWith needle []
  | c :: t => leadsWith needle (c :: t) || hasSub needle t

/-- The literal part of the regular expression src="([^"]+)". -/
def srcPat : List Char := "src=\"".data

/-- re.search of src="([^"]+)" over the html: at each position, the
pattern requires the literal src=", then a maximal non-empty run of
non-quote characters, then a closing quote; the first position where the
whole pattern matches yields the captured group. -/
def findSrcUrl : List Char → Option (List Char)
  | [] => none
  | c :: t =>
    if leadsWith srcPat (c :: t) then
      let rest := (c :: t).drop srcPat.length
      let url := rest.takeWhile (fun ch => ch != '"')
      if url.length > 0 && rest.length > url.length then some url
      else findSrcUrl t
    else findSrcUrl t

/-- The literal part of the regular expression cachebust=\d+. -/
def cbPat : List Char := "cachebust=".data

/-- Core of re.sub of cachebust=\d+: every occurrence of the literal
followed by a maximal non-empty digit run is rewritten to the literal
followed by the fresh timestamp. The fuel argument only enforces
termination; it is instantiated with the input length. -/
def subCacheCore (ts : List Char) : Nat → List Char → List Char
  | _, [] => []
  | 0, l => l
  | Nat.succ f, c :: t =>
    if leadsWith cbPat (c :: t) then
      let rest := (c :: t).drop cbPat.length
      let digits := rest.takeWhile Char.isDigit
      if digits.length > 0 then
        cbPat ++ ts ++ subCacheCore ts f (rest.drop digits.length)
      else c :: subCacheCore ts f t
    else c :: subCacheCore ts f t

/-- re.sub of cachebust=\d+ with the fresh timestamp, over a list of
characters. -/
def subCachebust (ts l : List Char) : List Char := subCacheCore ts l.length l

/-- Core of Python str.replace: left-to-right, non-overlapping replacement
of every occurrence of old by new (old is non-empty at the call site).
The fuel argument only enforces termination. -/
def pyReplaceCore (old new : List Char) : Nat → List Char → List Char
  | _, [] => []
  | 0, l => l
  | Nat.succ f, c :: t =>
    if old.length > 0 && leadsWith old (c :: t) then
      new ++ pyReplaceCore old new f ((c :: t).drop old.length)
    else
      c :: pyReplaceCore old new f t

/-- Python str.replace over lists of characters. -/
def pyReplace (s old new : List Char) : List Char := pyReplaceCore old new s.length s

/-- src/app.py update_viewer_from_state: called by the presentation poller
to read the current snapshot. It classifies the stored html by whether its
first 100 characters, lowercased, contain an iframe opening; for iframe
content it extracts the src URL, rewrites its cachebust timestamp to the
current time, and writes the rewritten html back into the store. The
returned value (what Gradio renders) equals the stored value after the
call, so the function is modelled as the new stored html. -/
def update_viewer_from_state (now_ms : Nat) (current_display_html : String) : String :=
  let html_indicator :=
    if hasSub "<iframe".data (pyLower ⟨current_display_html.data.take 100⟩).data
    then "iframe" else "idle/other"
  if html_indicator = "iframe" then
    match findSrcUrl current_display_html.data with
    | some original_url =>
      let updated_url := subCachebust (toString now_ms).data original_url
      ⟨pyReplace current_display_html.data original_url updated_url⟩
    | none => current_display_html
  else current_display_html

/-! The lifecycle controller state machine of src/app.py. -/

/-- A render instruction held in the module-level current_display_html
cell. The concrete html strings produced by the helper functions of
src/app.py are abstracted to one constructor per helper, keyed by the
dynamic payloads interpolated into them. -/
inductive Html where
  | init : Html
  | idle (status_message instruction : String) : Html
  | error (error_msg : String) : Html
  | battle_iframe (battle_id : String) : Html
deriving DecidableEq

/-- src/app.py create_idle_html (the idle status screen). -/
def create_idle_html (status_message instruction : String) : Html :=
  Html.idle status_message instruction

/-- src/app.py create_error_html (the error screen). -/
def create_error_html (error_msg : String) : Html :=
  Html.error error_msg

/-- src/app.py create_battle_iframe (the live battle iframe). -/
def create_battle_iframe (battle_id : String) : Html :=
  Html.battle_iframe battle_id

/-- The accept_challenges asyncio task held in active_agent_task; only its
identity (name) is state, its completion status is an external
observation. -/
structure AgentTask where
  name : String
deriving DecidableEq

/-- src/app.py DEFAULT_BATTLE_FORMAT. -/
def DEFAULT_BATTLE_FORMAT : String := "gen9randombattle"

/-- src/app.py REFRESH_INTERVAL_SECONDS. -/
def REFRESH_INTERVAL_SECONDS : Nat := 3

/-- src/app.py AGENT_CONFIGS: each configured agent name with its
password environment variable (the class field is the same agent class
for all three entries and plays no role in the lifecycle). -/
def AGENT_CONFIGS : List (String × String) :=
  [("OpenAIAgent", "OPENAI_AGENT_PASSWORD"),
   ("GeminiAgent", "GEMINI_AGENT_PASSWORD"),
   ("MistralAgent", "MISTRAL_AGENT_PASSWORD")]

/-- src/app.py AVAILABLE_AGENT_NAMES: the configured names whose password
environment variable is set to a truthy (non-empty) string, computed from
the process environment (modelled as a lookup function). -/
def AVAILABLE_AGENT_NAMES (environ : String → Option String) : List String :=
  (AGENT_CONFIGS.filter (fun cfg =>
    match environ cfg.2 with
    | some s => !(s = "")
    | none => false)).map Prod.fst

/-- Python random.choice over a non-empty list, driven by a random index
(random.choice draws uniformly over the positions of the list). -/
def random_choice (l : List String) (idx : Nat) : String :=
  l.getD (idx % l.length) ""

/-- The module-level mutable globals of src/app.py that the lifecycle
manager owns, plus a log of the print calls issued so far. -/
structure AppState where
  active_agent_name : Option String
  active_agent_instance : Option Agent
  active_agent_task : Option AgentTask
  current_battle_instance : Option Battle
  current_display_html : Html
  log : List String
deriving DecidableEq

/-- The initial values of the globals at module load. -/
def initial_state : AppState :=
  { active_agent_name := none
    active_agent_instance := none
    active_agent_task := none
    current_battle_instance := none
    current_display_html := Html.init
    log := [] }

/-- Outcome of awaiting the cancellation of the accept task in
deactivate_current_agent: confirmation, timeout, or another exception;
each is caught by its own except clause. -/
inductive CancelOutcome where
  | cancelled : CancelOutcome
  | timeout : CancelOutcome
  | errored (msg : String) : CancelOutcome
deriving DecidableEq

/-- Everything one loop cycle observes from outside the controller,
fixed for the duration of the cycle: the contents of the active agent's
battles dict, completion of the accept task, the outcome of agent
construction, the random draw, an optional unexpected exception raised in
the iteration body, and the teardown outcomes. -/
structure CycleEnv where
  battles : List (String × Battle)
  taskDone : Bool
  activationResult : Except String Unit
  randomIdx : Nat
  injectedError : Option String
  cancelOutcome : CancelOutcome
  websocketOpen : Bool
  disconnectResult : Except String Unit
  loop_counter : Nat

/-- src/app.py select_and_activate_new_agent: picks a random available
agent, instantiates it and starts its accept_challenges task, returning
whether activation succeeded. On an exception the partially created state
is cleared and the error screen is rendered; when no agent has its
password set the error screen is rendered and nothing is touched. -/
def select_and_activate_new_agent (environ : String → Option String)
    (env : CycleEnv) (s : AppState) : Bool × AppState :=
  if AVAILABLE_AGENT_NAMES environ = [] then
    (false, { s with
      log := s.log ++ ["Lifecycle: No available agents with passwords set."]
      current_display_html :=
        create_error_html "No agents available (check password env vars)." })
  else
    let selected_name := random_choice (AVAILABLE_AGENT_NAMES environ) env.randomIdx
    let s1 := { s with
      log := s.log ++ ["Lifecycle: Activating agent " ++ selected_name ++ "..."]
      current_display_html :=
        create_idle_html "Selecting Next Agent..." ("Preparing " ++ selected_name ++ "...") }
    match env.activationResult with
    | Except.ok _ =>
      (true, { s1 with
        active_agent_name := some selected_name
        active_agent_instance := some { username := selected_name, battles := [] }
        active_agent_task := some { name := "accept_challenge_" ++ selected_name }
        log := s1.log ++
          ["Lifecycle: Agent " ++ selected_name ++ " is active and listening for 1 challenge."]
        current_display_html :=
          create_idle_html ("Agent " ++ selected_name ++ " is ready!")
            ("Please challenge " ++ selected_name ++ " to a " ++ DEFAULT_BATTLE_FORMAT ++ " battle.") })
    | Except.error e =>
      (false, { s1 with
        log := s1.log ++ ["Failed to activate agent " ++ selected_name ++ ": " ++ e]
        current_display_html :=
          create_error_html ("Failed to activate agent " ++ selected_name ++ ": " ++ e)
        active_agent_name := none
        active_agent_instance := none
        active_agent_task := none })

/-- src/app.py check_for_new_battle: when an agent is active and
get_active_battle reports a battle carrying a truthy tag, record it in
current_battle_instance and cancel the still-pending accept task. -/
def check_for_new_battle (env : CycleEnv) (s : AppState) : AppState :=
  match s.active_agent_instance with
  | none => s
  | some agent =>
    match get_active_battle agent with
    | none => s
    | some battle =>
      if battle.battle_tag = "" then s
      else
        let s1 := { s with
          log := s.log ++ ["Lifecycle: Agent " ++ s.active_agent_name.getD "None" ++
            " started battle: " ++ battle.battle_tag]
          current_battle_instance := some battle }
        match s1.active_agent_task with
        | some _ =>
          if env.taskDone = false then
            { s1 with log := s1.log ++
              ["Lifecycle: Cancelling accept_challenges task for " ++
                s1.active_agent_name.getD "None" ++ " as battle started."] }
          else s1
        | none => s1

/-- src/app.py deactivate_current_agent: renders the transition screen,
clears all four globals first, then cancels the pending accept task
(awaiting confirmation with a timeout, every exception caught) and
disconnects the player (every exception caught). The teardown operations
only log, so they are folded into the log update here; the cleared record
is the result on every path. -/
def deactivate_current_agent (env : CycleEnv) (reason : String) (s : AppState) : AppState :=
  let cancelLog : List String :=
    match s.active_agent_task with
    | some _ =>
      if env.taskDone = false then
        ["Lifecycle: Cancelling task..."] ++
        (match env.cancelOutcome with
         | CancelOutcome.cancelled => ["Lifecycle: Task cancellation confirmed."]
         | CancelOutcome.timeout =>
           ["Lifecycle: Task did not confirm cancellation within timeout."]
         | CancelOutcome.errored e =>
           ["Lifecycle: Error during task cancellation wait: " ++ e])
      else []
    | none => []
  let disconnectLog : List String :=
    match s.active_agent_instance with
    | some a =>
      ["Lifecycle: Disconnecting player " ++ a.username ++ "..."] ++
      (if env.websocketOpen then
        match env.disconnectResult with
        | Except.ok _ => ["Lifecycle: Player " ++ a.username ++ " disconnected."]
        | Except.error e => ["ERROR during agent disconnect (" ++ a.username ++ "): " ++ e]
      else
        ["Lifecycle: Player " ++ a.username ++ " already disconnected or websocket not ready."])
    | none => []
  { s with
    log := s.log ++
      ["Lifecycle: Deactivating agent " ++ s.active_agent_name.getD "None" ++
        " (Reason: " ++ reason ++ ")..."] ++
      cancelLog ++ disconnectLog ++ ["Lifecycle: Agent deactivated."]
    current_display_html :=
      create_idle_html (if reason = "battle_end" then "Battle Finished" else "Resetting Agent")
        "Preparing for next selection..."
    active_agent_name := none
    active_agent_instance := none
    active_agent_task := none
    current_battle_instance := none }

/-- The State 2 part of the loop body of src/app.py
manage_agent_lifecycle (an agent is active; lines 291-338), factored out
of the cycle function: the active agent (its battles dict refreshed from
the external client) is passed alongside the state. Checks the accept
task, looks for a newly started battle, monitors the tracked battle, and
deactivates on completion, on a vanished battle object, or on a completed
task. Returns the new state and the seconds slept before the next cycle
(a continue statement skips the trailing interval sleep). -/
def lifecycle_state2 (env : CycleEnv) (a : Agent) (s2 : AppState) : AppState × Nat :=
  if (match s2.active_agent_task with
      | some _ => env.taskDone
      | none => false) then
    (deactivate_current_agent env "task_done_or_error" s2, 0)
  else
    let s3 := if s2.current_battle_instance.isNone
              then check_for_new_battle env s2 else s2
    match s3.current_battle_instance with
    | some b =>
      match a.battles.lookup b.battle_tag with
      | some battle_obj_current =>
        if battle_obj_current.finished = false then
          let s4 := if env.loop_counter % 3 = 0
                    then { s3 with current_display_html := create_battle_iframe b.battle_tag }
                    else s3
          (s4, REFRESH_INTERVAL_SECONDS)
        else
          (deactivate_current_agent env "battle_end" s3, 5)
      | none =>
        let s4 := { s3 with log := s3.log ++
          ["State 2a WARNING: Battle object for " ++ b.battle_tag ++
            " MISSING! Deactivating."] }
        (deactivate_current_agent env "battle_object_missing" s4, 0)
    | none =>
      ({ s3 with current_display_html :=
          (create_idle_html ("Agent " ++ s3.active_agent_name.getD "None" ++ " is ready!")
            ("Please challenge " ++ s3.active_agent_name.getD "None" ++ " to a " ++
              DEFAULT_BATTLE_FORMAT ++ " battle.")) },
       REFRESH_INTERVAL_SECONDS)

/-- One iteration of the while-loop body of src/app.py
manage_agent_lifecycle, together with the number of seconds slept before
the next iteration (sleep calls plus the trailing interval sleep, which a
continue statement skips). The try/except of the iteration body is the
outermost match: an unexpected exception anywhere in the body is modelled
as injected at the start of the cycle and lands in the handler, which
deactivates an active agent or renders the error screen, then sleeps and
lets the loop continue. -/
def manage_agent_lifecycle_cycle (environ : String → Option String)
    (env : CycleEnv) (s0 : AppState) : AppState × Nat :=
  let s := { s0 with log := s0.log ++ ["--- Lifecycle Check ---"] }
  match env.injectedError with
  | some e =>
    let sE := { s with log := s.log ++ ["ERROR in main lifecycle loop: " ++ e] }
    match sE.active_agent_instance with
    | some _ =>
      (deactivate_current_agent env "main_loop_error" sE, 10 + REFRESH_INTERVAL_SECONDS)
    | none =>
      ({ sE with current_display_html :=
          create_error_html ("Error in lifecycle manager: " ++ e) },
       10 + REFRESH_INTERVAL_SECONDS)
  | none =>
    match s.active_agent_instance with
    | none =>
      let r := select_and_activate_new_agent environ env s
      if r.1 = false then
        ({ r.2 with log := r.2.log ++ ["State 1: Activation failed. Waiting."] }, 10)
      else
        (r.2, REFRESH_INTERVAL_SECONDS)
    | some a0 =>
      let a : Agent := { a0 with battles := env.battles }
      lifecycle_state2 env a { s with active_agent_instance := some a }

/-- The controller-state invariant implicit in the globals: whenever a
battle is being monitored, it has a non-empty battle tag and an agent
instance is active. -/
def Inv (s : AppState) : Prop :=
  ∀ b, s.current_battle_instance = some b →
    ¬ b.battle_tag = "" ∧ s.active_agent_instance.isSome = true

/-- Well-formedness of the external battles dict: every entry is keyed by
the battle tag of its battle object and keys are distinct, exactly as
poke_env maintains its per-player battles dictionary. -/
def EnvWF (env : CycleEnv) : Prop :=
  (∀ p ∈ env.battles, (p.2).battle_tag = p.1) ∧ (env.battles.map Prod.fst).Nodup

/-! Concrete fixtures used to exercise the theorems on closed inputs. -/

/-- An environment where only the OpenAI agent password is set. -/
def environ_pw : String → Option String :=
  fun v => if v = "OPENAI_AGENT_PASSWORD" then some "hunter2" else none

/-- An environment where no agent password is set. -/
def environ_missing : String → Option String := fun _ => none

/-- A baseline cycle environment: no battles known, accept task pending,
activation succeeding, teardown succeeding. -/
def env_base : CycleEnv :=
  { battles := []
    taskDone := false
    activationResult := Except.ok ()
    randomIdx := 0
    injectedError := none
    cancelOutcome := CancelOutcome.cancelled
    websocketOpen := true
    disconnectResult := Except.ok ()
    loop_counter := 1 }

/-- A cycle environment in which the external client reports one
unfinished battle. -/
def env_battle : CycleEnv :=
  { env_base with battles := [("battle-42", { battle_tag := "battle-42", finished := false })] }

/-- A cycle environment whose activation raises. -/
def env_actfail : CycleEnv := { env_base with activationResult := Except.error "boom" }

/-- A cycle environment injecting an unexpected exception into the loop
body. -/
def env_err : CycleEnv := { env_base with injectedError := some "kaput" }

/-- The active agent while listening for a challenge. -/
def agent_listening : Agent := { username := "OpenAIAgent", battles := [] }

/-- The unfinished battle used by the fixtures. -/
def battle42 : Battle := { battle_tag := "battle-42", finished := false }

/-- A controller state with an active agent listening and no battle. -/
def state_listening : AppState :=
  { active_agent_name := some "OpenAIAgent"
    active_agent_instance := some agent_listening
    active_agent_task := some { name := "accept_challenge_OpenAIAgent" }
    current_battle_instance := none
    current_display_html := Html.init
    log := [] }

/-- A controller state tracking battle-42 with an active agent. -/
def state_inmatch : AppState :=
  { state_listening with
    active_agent_instance := some { agent_listening with battles := [("battle-42", battle42)] }
    current_battle_instance := some battle42 }

/-! Supporting lemmas. -/

/-- A battle reported by get_active_battle is one of the agent's battles,
is not finished, and carries a non-empty tag. -/
theorem get_active_battle_some {agent : Agent} {b : Battle}
    (h : get_active_battle agent = some b) :
    b ∈ agent.battles.map Prod.snd ∧ b.finished = false ∧ ¬ b.battle_tag = "" := by
  unfold get_active_battle at h
  by_cases hne : agent.battles = []
  · simp [hne] at h
  · rw [if_neg hne] at h
    cases hf : (agent.battles.map Prod.snd).filter (fun b => !b.finished) with
    | nil => rw [hf] at h; exact absurd h (by simp)
    | cons x t =>
      rw [hf] at h
      by_cases ht : x.battle_tag = ""
      · simp [ht] at h
      · simp only [ht, if_false] at h
        have hx : x = b := by simpa using h
        subst hx
        have hmem : x ∈ (agent.battles.map Prod.snd).filter (fun b => !b.finished) := by
          rw [hf]; exact List.mem_cons_self _ _
        have hmf := List.mem_filter.mp hmem
        refine ⟨hmf.1, ?_, ht⟩
        simpa using hmf.2

/-- In a well-formed battles dict (keys are the battle tags, no duplicate
keys), looking up the tag of a stored battle returns that battle. -/
theorem lookup_wf (l : List (String × Battle))
    (hkeys : ∀ p ∈ l, (p.2).battle_tag = p.1)
    (hnd : (l.map Prod.fst).Nodup) :
    ∀ b ∈ l.map Prod.snd, l.lookup b.battle_tag = some b := by
  induction l with
  | nil => intro b hb; simp at hb
  | cons p t ih =>
    intro b hb
    rcases p with ⟨k, v⟩
    have hk : v.battle_tag = k := hkeys (k, v) (List.mem_cons_self _ _)
    simp only [List.map_cons, List.nodup_cons] at hnd
    simp only [List.map_cons, List.mem_cons] at hb
    cases hb with
    | inl hv =>
      subst hv
      simp [List.lookup, hk]
    | inr hbt =>
      obtain ⟨q, hq, hqv⟩ := List.mem_map.mp hbt
      have hqk : (q.2).battle_tag = q.1 := hkeys q (List.mem_cons_of_mem _ hq)
      have hbk : b.battle_tag = q.1 := by rw [← hqv]; exact hqk
      have hkq : ¬ b.battle_tag = k := by
        intro hcontra
        apply hnd.1
        rw [← hcontra, hbk]
        exact List.mem_map_of_mem Prod.fst hq
      have hrec := ih (fun p hp => hkeys p (List.mem_cons_of_mem _ hp)) hnd.2 b hbt
      have hbeq : (b.battle_tag == k) = false := by
        simp [hkq]
      simp [List.lookup, hbeq, hrec]

/-- check_for_new_battle never changes the agent reference, the name, and
the task. -/
theorem check_for_new_battle_frame (env : CycleEnv) (s : AppState) :
    (check_for_new_battle env s).active_agent_instance = s.active_agent_instance ∧
    (check_for_new_battle env s).active_agent_name = s.active_agent_name ∧
    (check_for_new_battle env s).active_agent_task = s.active_agent_task := by
  unfold check_for_new_battle
  cases hi : s.active_agent_instance with
  | none => simp [hi]
  | some agent =>
    cases hg : get_active_battle agent with
    | none => simp [hi, hg]
    | some battle =>
      by_cases ht : battle.battle_tag = ""
      · simp [hi, hg, ht]
      · cases hta : s.active_agent_task with
        | none => simp [hi, hg, ht, hta]
        | some tk =>
          by_cases hd : env.taskDone = false <;> simp [hi, hg, ht, hta, hd]

/-- The battle recorded by check_for_new_battle is either the one already
recorded or a battle freshly reported by get_active_battle on the active
agent. -/
theorem check_for_new_battle_battle (env : CycleEnv) (s : AppState) :
    (check_for_new_battle env s).current_battle_instance = s.current_battle_instance ∨
    (∃ a b, s.active_agent_instance = some a ∧ get_active_battle a = some b ∧
      (check_for_new_battle env s).current_battle_instance = some b) := by
  unfold check_for_new_battle
  cases hi : s.active_agent_instance with
  | none => exact Or.inl (by simp [hi])
  | some agent =>
    cases hg : get_active_battle agent with
    | none => exact Or.inl (by simp [hi, hg])
    | some battle =>
      by_cases ht : battle.battle_tag = ""
      · exact Or.inl (by simp [hi, hg, ht])
      · refine Or.inr ⟨agent, battle, by simp [hi], hg, ?_⟩
        cases hta : s.active_agent_task with
        | none => simp [hi, hg, ht, hta]
        | some tk =>
          by_cases hd : env.taskDone = false <;> simp [hi, hg, ht, hta, hd]

/-- When an agent is active and get_active_battle reports a battle, the
detection records exactly that battle. -/
theorem check_for_new_battle_detects {env : CycleEnv} {s : AppState} {a : Agent} {b : Battle}
    (hi : s.active_agent_instance = some a) (hg : get_active_battle a = some b) :
    (check_for_new_battle env s).current_battle_instance = some b := by
  have ht : ¬ b.battle_tag = "" := (get_active_battle_some hg).2.2
  unfold check_for_new_battle
  cases hta : s.active_agent_task with
  | none => simp [hi, hg, ht, hta]
  | some tk =>
    by_cases hd : env.taskDone = false <;> simp [hi, hg, ht, hta, hd]

/-- deactivate_current_agent clears the active-agent name on every path. -/
@[simp] theorem deactivate_current_agent_name (env : CycleEnv) (reason : String) (s : AppState) :
    (deactivate_current_agent env reason s).active_agent_name = none := rfl

/-- deactivate_current_agent clears the agent instance on every path. -/
@[simp] theorem deactivate_current_agent_inst (env : CycleEnv) (reason : String) (s : AppState) :
    (deactivate_current_agent env reason s).active_agent_instance = none := rfl

/-- deactivate_current_agent clears the accept task on every path. -/
@[simp] theorem deactivate_current_agent_task (env : CycleEnv) (reason : String) (s : AppState) :
    (deactivate_current_agent env reason s).active_agent_task = none := rfl

/-- deactivate_current_agent clears the tracked battle on every path. -/
@[simp] theorem deactivate_current_agent_battle (env : CycleEnv) (reason : String) (s : AppState) :
    (deactivate_current_agent env reason s).current_battle_instance = none := rfl

/-- random.choice over a non-empty list picks an element of the list. -/
theorem random_choice_mem {l : List String} (h : ¬ l = []) (idx : Nat) :
    random_choice l idx ∈ l := by
  unfold random_choice
  have hlen : 0 < l.length := List.length_pos.mpr h
  have hmod : idx % l.length < l.length := Nat.mod_lt _ hlen
  rw [List.getD_eq_getElem?_getD, List.getElem?_eq_getElem hmod]
  exact List.getElem_mem hmod

/-- Every element of the list is picked by random.choice for some draw. -/
theorem random_choice_surj {l : List String} {n : String} (h : n ∈ l) :
    ∃ idx, random_choice l idx = n := by
  refine ⟨l.indexOf n, ?_⟩
  unfold random_choice
  have hlt : l.indexOf n < l.length := List.indexOf_lt_length.mpr h
  rw [Nat.mod_eq_of_lt hlt, List.getD_eq_getElem?_getD, List.getElem?_eq_getElem hlt]
  exact List.getElem_indexOf hlt

/-- The agent reference produced by select_and_activate_new_agent: either
untouched (no identity available), cleared (activation raised), or a fresh
agent carrying the randomly drawn available name. -/
theorem select_activate_instance (environ : String → Option String)
    (env : CycleEnv) (s : AppState) :
    (select_and_activate_new_agent environ env s).2.active_agent_instance =
        s.active_agent_instance ∨
    (select_and_activate_new_agent environ env s).2.active_agent_instance = none ∨
    (¬ AVAILABLE_AGENT_NAMES environ = [] ∧
      (select_and_activate_new_agent environ env s).2.active_agent_instance =
        some { username := random_choice (AVAILABLE_AGENT_NAMES environ) env.randomIdx,
               battles := [] }) := by
  unfold select_and_activate_new_agent
  by_cases hav : AVAILABLE_AGENT_NAMES environ = []
  · left; simp [hav]
  · cases hact : env.activationResult with
    | ok u => right; right; exact ⟨hav, by simp [hav, hact]⟩
    | error e => right; left; simp [hav, hact]

/-- select_and_activate_new_agent never touches the tracked battle. -/
theorem select_activate_battle (environ : String → Option String)
    (env : CycleEnv) (s : AppState) :
    (select_and_activate_new_agent environ env s).2.current_battle_instance =
      s.current_battle_instance := by
  unfold select_and_activate_new_agent
  by_cases hav : AVAILABLE_AGENT_NAMES environ = []
  · simp [hav]
  · cases hact : env.activationResult with
    | ok u => simp [hav, hact]
    | error e => simp [hav, hact]

/-- The agent-active part of a cycle either keeps exactly the agent it was
given or clears the reference; it never installs another agent. -/
theorem lifecycle_state2_instance {env : CycleEnv} {a : Agent} {s2 : AppState}
    (hi : s2.active_agent_instance = some a) :
    (lifecycle_state2 env a s2).1.active_agent_instance = none ∨
    (lifecycle_state2 env a s2).1.active_agent_instance = some a := by
  unfold lifecycle_state2
  by_cases htd : (match s2.active_agent_task with
      | some _ => env.taskDone
      | none => false) = true
  · left; simp [htd]
  · rw [if_neg htd]
    cases hbn : s2.current_battle_instance with
    | none =>
      simp only [hbn, Option.isNone_none, if_true]
      have hci := (check_for_new_battle_frame env s2).1
      cases hb3 : (check_for_new_battle env s2).current_battle_instance with
      | none => right; simp [hb3, hci, hi]
      | some b =>
        cases hlk : a.battles.lookup b.battle_tag with
        | none => left; simp [hb3, hlk]
        | some obj =>
          by_cases hfin : obj.finished = false
          · right
            by_cases hlc : env.loop_counter % 3 = 0 <;>
              simp [hb3, hlk, hfin, hlc, hci, hi]
          · left; simp [hb3, hlk, hfin]
    | some b0 =>
      simp only [hbn, Option.isNone_some, if_false]
      cases hlk : a.battles.lookup b0.battle_tag with
      | none => left; simp [hbn, hlk]
      | some obj =>
        by_cases hfin : obj.finished = false
        · right
          by_cases hlc : env.loop_counter % 3 = 0 <;>
            simp [hbn, hlk, hfin, hlc, hi]
        · left; simp [hbn, hlk, hfin]

/-- A cycle that detects a fresh battle (agent active, no tracked battle,
accept task still pending, external dict well-formed) ends that same cycle
still in-match: the agent stays active, exactly the detected battle is
tracked, and only the regular interval sleep follows. -/
theorem lifecycle_state2_detects {env : CycleEnv} {a : Agent} {s2 : AppState} {b : Battle}
    (hi : s2.active_agent_instance = some a)
    (hb : s2.current_battle_instance = none)
    (htd : env.taskDone = false)
    (hwf : EnvWF env)
    (hab : a.battles = env.battles)
    (hg : get_active_battle a = some b) :
    (lifecycle_state2 env a s2).1.active_agent_instance = some a ∧
    (lifecycle_state2 env a s2).1.current_battle_instance = some b ∧
    (lifecycle_state2 env a s2).2 = REFRESH_INTERVAL_SECONDS := by
  have hmemv : b ∈ a.battles.map Prod.snd := (get_active_battle_some hg).1
  have hfin : b.finished = false := (get_active_battle_some hg).2.1
  have hlk : a.battles.lookup b.battle_tag = some b := by
    rw [hab]
    exact lookup_wf env.battles hwf.1 hwf.2 b (by rw [← hab]; exact hmemv)
  have htd2 : (match s2.active_agent_task with
      | some _ => env.taskDone
      | none => false) = false := by
    cases s2.active_agent_task <;> simp [htd]
  have hb3 : (check_for_new_battle env s2).current_battle_instance = some b :=
    check_for_new_battle_detects hi hg
  have hci := (check_for_new_battle_frame env s2).1
  unfold lifecycle_state2
  rw [htd2]
  simp only [Bool.false_eq_true, if_false, hb, Option.isNone_none, if_true, hb3, hlk, hfin]
  by_cases hlc : env.loop_counter % 3 = 0 <;>
    simp [hlc, hb3, hci, hi]

/-- The agent-active part of a cycle preserves the controller invariant. -/
theorem lifecycle_state2_inv {env : CycleEnv} {a : Agent} {s2 : AppState}
    (hi : s2.active_agent_instance = some a) (hInv : Inv s2) :
    Inv (lifecycle_state2 env a s2).1 := by
  unfold lifecycle_state2
  by_cases htd : (match s2.active_agent_task with
      | some _ => env.taskDone
      | none => false) = true
  · simp [htd, Inv]
  · rw [if_neg htd]
    cases hbn : s2.current_battle_instance with
    | none =>
      simp only [hbn, Option.isNone_none, if_true]
      have hci := (check_for_new_battle_frame env s2).1
      cases hb3 : (check_for_new_battle env s2).current_battle_instance with
      | none =>
        intro bb hbb
        simp [hb3] at hbb
      | some b =>
        have hbtag : ¬ b.battle_tag = "" := by
          rcases check_for_new_battle_battle env s2 with hsame | ⟨a', b', hia', hg', hcb'⟩
          · rw [hb3, hbn] at hsame; exact absurd hsame (by simp)
          · rw [hb3] at hcb'
            have hbb' : b = b' := by simpa using hcb'
            subst hbb'
            exact (get_active_battle_some hg').2.2
        cases hlk : a.battles.lookup b.battle_tag with
        | none => simp [hb3, hlk, Inv]
        | some obj =>
          by_cases hfin : obj.finished = false
          · by_cases hlc : env.loop_counter % 3 = 0 <;>
            · simp only [hb3, hlk, hfin, hlc, if_true, if_false]
              intro bb hbb
              simp [hlc, hb3, hlk, hfin] at hbb
              subst hbb
              exact ⟨hbtag, by simp [hb3, hlk, hfin, hlc, hci, hi]⟩
          · simp [hb3, hlk, hfin, Inv]
    | some b0 =>
      simp only [hbn, Option.isNone_some, if_false]
      have hb0 := hInv b0 hbn
      cases hlk : a.battles.lookup b0.battle_tag with
      | none => simp [hbn, hlk, Inv]
      | some obj =>
        by_cases hfin : obj.finished = false
        · by_cases hlc : env.loop_counter % 3 = 0 <;>
          · simp only [hbn, hlk, hfin, hlc, if_true, if_false]
            intro bb hbb
            simp [hlc, hbn, hlk, hfin] at hbb
            subst hbb
            exact ⟨hb0.1, by simp [hbn, hlk, hfin, hlc, hi]⟩
        · simp [hbn, hlk, hfin, Inv]

/-- When the tracked battle vanishes from the external battles dict while
the accept task is still pending, the agent-active part of the cycle
deactivates the agent (all references cleared), logs the vanished battle
distinctly, renders the reset screen, and continues immediately. -/
theorem lifecycle_state2_match_lost {env : CycleEnv} {a : Agent} {s2 : AppState} {b : Battle}
    (hb : s2.current_battle_instance = some b)
    (htd : env.taskDone = false)
    (hlk : a.battles.lookup b.battle_tag = none) :
    (lifecycle_state2 env a s2).1.active_agent_name = none ∧
    (lifecycle_state2 env a s2).1.active_agent_instance = none ∧
    (lifecycle_state2 env a s2).1.active_agent_task = none ∧
    (lifecycle_state2 env a s2).1.current_battle_instance = none ∧
    ("State 2a WARNING: Battle object for " ++ b.battle_tag ++ " MISSING! Deactivating.")
      ∈ (lifecycle_state2 env a s2).1.log ∧
    ("Lifecycle: Deactivating agent " ++ s2.active_agent_name.getD "None" ++
        " (Reason: " ++ "battle_object_missing" ++ ")...")
      ∈ (lifecycle_state2 env a s2).1.log ∧
    (lifecycle_state2 env a s2).1.current_display_html =
      create_idle_html "Resetting Agent" "Preparing for next selection..." ∧
    (lifecycle_state2 env a s2).2 = 0 := by
  have htd2 : (match s2.active_agent_task with
      | some _ => env.taskDone
      | none => false) = false := by
    cases s2.active_agent_task <;> simp [htd]
  unfold lifecycle_state2
  rw [htd2]
  simp only [Bool.false_eq_true, if_false, hb, Option.isNone_some, hlk]
  refine ⟨by simp, by simp, by simp, by simp, ?_, ?_, ?_, by trivial⟩
  · simp [deactivate_current_agent]
  · simp [deactivate_current_agent]
  · simp [deactivate_current_agent]

/-! Claim theorems. -/

/-- C3: for every teardown environment (cancellation-wait outcome
confirmation, timeout, or exception, and disconnect succeeding, failing,
or skipped), every reason, and every starting state,
deactivate_current_agent leaves the controller in Idle: the active-agent
name, instance, task, and tracked battle references are all None
afterwards. -/
theorem teardown_returns_to_idle (env : CycleEnv) (reason : String) (s : AppState) :
    (deactivate_current_agent env reason s).active_agent_name = none ∧
    (deactivate_current_agent env reason s).active_agent_instance = none ∧
    (deactivate_current_agent env reason s).active_agent_task = none ∧
    (deactivate_current_agent env reason s).current_battle_instance = none :=
  ⟨rfl, rfl, rfl, rfl⟩

/-- C6 counterexample: with a known-matches mapping holding one unfinished
match whose battle tag is still empty, an unfinished match exists (the
claimed poll returns it) yet get_active_battle returns None: poll does not
return the first unfinished match in every case. -/
theorem poll_first_unfinished_counterexample :
    get_active_battle
        { username := "AgentA", battles := [("", { battle_tag := "", finished := false })] } = none ∧
    get_active_battle_claimed
        { username := "AgentA", battles := [("", { battle_tag := "", finished := false })] } =
      some { battle_tag := "", finished := false } := by
  decide

/-- C6 amended: get_active_battle returns the first not-yet-finished match
of the session's known-matches mapping provided that match already has a
non-empty battle tag; it returns None when no unfinished match exists or
when the first unfinished match has an empty tag. It is a pure function of
the agent, so it modifies no session state. -/
theorem get_active_battle_first_unfinished (agent : Agent) :
    get_active_battle agent =
      (match get_active_battle_claimed agent with
       | some b => if b.battle_tag = "" then none else some b
       | none => none) := by
  unfold get_active_battle get_active_battle_claimed
  by_cases h : agent.battles = []
  · simp [h]
  · rw [if_neg h]
    exact filter_head_eq_find _ _

/-- C9 counterexample: reading the snapshot while an iframe instruction is
stored rewrites the cache-busting timestamp inside the stored html, so the
read leaves the stored instruction changed, not unchanged as claimed. -/
theorem snapshot_read_counterexample :
    update_viewer_from_state 2
        "<iframe src=\"https://j/c.html?cachebust=1#battle-42\"></iframe>" ≠
      "<iframe src=\"https://j/c.html?cachebust=1#battle-42\"></iframe>" := by
  decide

/-- C9 amended: reading the current render snapshot leaves the stored
instruction unchanged whenever the stored html is not iframe content (its
first 100 characters, lowercased, do not contain an iframe opening tag);
only for a stored iframe instruction does the read rewrite the
cache-busting timestamp of the stored html. -/
theorem snapshot_read_preserves_non_iframe (now_ms : Nat) (html : String)
    (h : hasSub "<iframe".data (pyLower ⟨html.data.take 100⟩).data = false) :
    update_viewer_from_state now_ms html = html := by
  unfold update_viewer_from_state
  simp [h]

/-- Witness for the amended C9 theorem at the initial idle screen text. -/
theorem snapshot_read_preserves_non_iframe_witness :
    hasSub "<iframe".data (pyLower ⟨"Initializing Stream Display...".data.take 100⟩).data = false ∧
    update_viewer_from_state 5 "Initializing Stream Display..." = "Initializing Stream Display..." :=
  ⟨by decide, snapshot_read_preserves_non_iframe 5 "Initializing Stream Display..." (by decide)⟩

/-- C1: at most one agent session exists at any time. When an agent is
already active, a lifecycle cycle never activates another one: the
resulting reference is either cleared by deactivation or still the very
same agent (its battles dict refreshed from the external client). The
reference is only ever set by the activation branch, which runs only from
the no-agent state and installs a fresh agent drawn from the available
names. -/
theorem single_session_invariant (environ : String → Option String)
    (env : CycleEnv) (s : AppState) :
    (∀ a, s.active_agent_instance = some a →
      (manage_agent_lifecycle_cycle environ env s).1.active_agent_instance = none ∨
      (manage_agent_lifecycle_cycle environ env s).1.active_agent_instance =
        some { a with battles := env.battles }) ∧
    (s.active_agent_instance = none →
      ∀ a, (manage_agent_lifecycle_cycle environ env s).1.active_agent_instance = some a →
        a.username ∈ AVAILABLE_AGENT_NAMES environ ∧ a.battles = []) := by
  constructor
  · intro a ha
    unfold manage_agent_lifecycle_cycle
    cases hie : env.injectedError with
    | some e => left; simp [ha]
    | none =>
      simp only [ha]
      exact lifecycle_state2_instance rfl
  · intro h0 a hres
    unfold manage_agent_lifecycle_cycle at hres
    cases hie : env.injectedError with
    | some e =>
      rw [hie] at hres
      simp [h0] at hres
    | none =>
      rw [hie] at hres
      simp only [h0] at hres
      by_cases hav : AVAILABLE_AGENT_NAMES environ = []
      · simp [select_and_activate_new_agent, hav, h0] at hres
      · cases hact : env.activationResult with
        | error e =>
          simp [select_and_activate_new_agent, hav, hact, h0] at hres
        | ok u =>
          simp [select_and_activate_new_agent, hav, hact, h0] at hres
          subst hres
          exact ⟨random_choice_mem hav env.randomIdx, rfl⟩

/-- C2: a lifecycle cycle performs at most one of the named transitions.
Starting from Idle (no agent), a cycle never reaches InMatch: the tracked
battle is still None afterwards, whatever activation does. A cycle that
first detects a match (agent active, no tracked battle, pending task, and
the external dict reports a fresh battle) ends that same cycle still
InMatch with exactly that battle tracked and the agent still active — it
does not continue to Draining or back to Idle. -/
theorem transition_boundedness (environ : String → Option String)
    (env : CycleEnv) (s : AppState) (hInv : Inv s) :
    (s.active_agent_instance = none →
      (manage_agent_lifecycle_cycle environ env s).1.current_battle_instance = none) ∧
    (∀ a b, s.active_agent_instance = some a → s.current_battle_instance = none →
      env.injectedError = none → env.taskDone = false → EnvWF env →
      get_active_battle { a with battles := env.battles } = some b →
      (manage_agent_lifecycle_cycle environ env s).1.active_agent_instance =
        some { a with battles := env.battles } ∧
      (manage_agent_lifecycle_cycle environ env s).1.current_battle_instance = some b ∧
      (manage_agent_lifecycle_cycle environ env s).2 = REFRESH_INTERVAL_SECONDS) := by
  constructor
  · intro h0
    have hb : s.current_battle_instance = none := by
      cases hbc : s.current_battle_instance with
      | none => rfl
      | some b =>
        have := (hInv b hbc).2
        rw [h0] at this
        simp at this
    unfold manage_agent_lifecycle_cycle
    cases hie : env.injectedError with
    | some e => simp [h0, hb]
    | none =>
      simp only [h0]
      by_cases hav : AVAILABLE_AGENT_NAMES environ = []
      · simp [select_and_activate_new_agent, hav, hb]
      · cases hact : env.activationResult with
        | ok u => simp [select_and_activate_new_agent, hav, hact, hb]
        | error e => simp [select_and_activate_new_agent, hav, hact, hb]
  · intro a b ha hb hie htd hwf hg
    unfold manage_agent_lifecycle_cycle
    rw [hie]
    simp only [ha]
    exact lifecycle_state2_detects rfl (by simp [hb]) htd hwf rfl hg

/-- C4: when activation of the selected agent raises, the cycle renders
the activation-error screen, leaves no partial session referenced (name,
instance, and task are all None afterwards), and the controller stays Idle
with a 10 second retry delay before the next attempt. -/
theorem activation_failure_leaves_idle (environ : String → Option String)
    (env : CycleEnv) (s : AppState) (e : String)
    (h0 : s.active_agent_instance = none)
    (hie : env.injectedError = none)
    (hav : ¬ AVAILABLE_AGENT_NAMES environ = [])
    (hact : env.activationResult = Except.error e) :
    (manage_agent_lifecycle_cycle environ env s).1.current_display_html =
      create_error_html ("Failed to activate agent " ++
        random_choice (AVAILABLE_AGENT_NAMES environ) env.randomIdx ++ ": " ++ e) ∧
    (manage_agent_lifecycle_cycle environ env s).1.active_agent_name = none ∧
    (manage_agent_lifecycle_cycle environ env s).1.active_agent_instance = none ∧
    (manage_agent_lifecycle_cycle environ env s).1.active_agent_task = none ∧
    (manage_agent_lifecycle_cycle environ env s).2 = 10 := by
  unfold manage_agent_lifecycle_cycle
  rw [hie]
  simp [h0, select_and_activate_new_agent, hav, hact]

/-- C5: on activation from Idle the identity is drawn from exactly the
set of configured identities whose password environment variable is set:
every draw lands in that set and every member of the set is drawn for
some random index. When the set is empty the cycle renders the
no-agents-available error screen, touches neither the name nor the task,
creates no session (the instance stays None), and retries after the fixed
10 second delay. -/
theorem agent_selection_policy (environ : String → Option String)
    (env : CycleEnv) (s : AppState) :
    (¬ AVAILABLE_AGENT_NAMES environ = [] →
      random_choice (AVAILABLE_AGENT_NAMES environ) env.randomIdx ∈
        AVAILABLE_AGENT_NAMES environ) ∧
    (∀ n ∈ AVAILABLE_AGENT_NAMES environ, ∃ idx,
      random_choice (AVAILABLE_AGENT_NAMES environ) idx = n) ∧
    (AVAILABLE_AGENT_NAMES environ = [] → s.active_agent_instance = none →
      env.injectedError = none →
      (manage_agent_lifecycle_cycle environ env s).1.current_display_html =
        create_error_html "No agents available (check password env vars)." ∧
      (manage_agent_lifecycle_cycle environ env s).1.active_agent_name =
        s.active_agent_name ∧
      (manage_agent_lifecycle_cycle environ env s).1.active_agent_instance = none ∧
      (manage_agent_lifecycle_cycle environ env s).1.active_agent_task =
        s.active_agent_task ∧
      (manage_agent_lifecycle_cycle environ env s).2 = 10) := by
  refine ⟨fun h => random_choice_mem h env.randomIdx,
          fun n hn => random_choice_surj hn, ?_⟩
  intro hav h0 hie
  unfold manage_agent_lifecycle_cycle
  rw [hie]
  simp [h0, select_and_activate_new_agent, hav]

/-- C7: when the tracked battle tag vanishes from the external battles
dict before completion was observed (while the accept task is still
pending), the cycle treats it as a Draining trigger: the agent is
deactivated (all references cleared), the vanished battle is logged by a
dedicated warning and the deactivation reason battle_object_missing,
distinct from the battle_end reason of normal completion, and the reset
screen (not the Battle Finished screen) is rendered. -/
theorem match_lost_triggers_draining (environ : String → Option String)
    (env : CycleEnv) (s : AppState) (a : Agent) (b : Battle)
    (hie : env.injectedError = none)
    (ha : s.active_agent_instance = some a)
    (hb : s.current_battle_instance = some b)
    (htd : env.taskDone = false)
    (hlk : env.battles.lookup b.battle_tag = none) :
    (manage_agent_lifecycle_cycle environ env s).1.active_agent_name = none ∧
    (manage_agent_lifecycle_cycle environ env s).1.active_agent_instance = none ∧
    (manage_agent_lifecycle_cycle environ env s).1.active_agent_task = none ∧
    (manage_agent_lifecycle_cycle environ env s).1.current_battle_instance = none ∧
    ("State 2a WARNING: Battle object for " ++ b.battle_tag ++ " MISSING! Deactivating.")
      ∈ (manage_agent_lifecycle_cycle environ env s).1.log ∧
    ("Lifecycle: Deactivating agent " ++ s.active_agent_name.getD "None" ++
        " (Reason: " ++ "battle_object_missing" ++ ")...")
      ∈ (manage_agent_lifecycle_cycle environ env s).1.log ∧
    (manage_agent_lifecycle_cycle environ env s).1.current_display_html =
      create_idle_html "Resetting Agent" "Preparing for next selection..." ∧
    (manage_agent_lifecycle_cycle environ env s).2 = 0 := by
  unfold manage_agent_lifecycle_cycle
  rw [hie]
  simp only [ha]
  exact lifecycle_state2_match_lost (by simp [hb]) htd hlk

/-- C8: an unexpected exception raised inside a loop iteration is caught
at the iteration boundary and never escapes: the cycle still returns a
state and a finite sleep (the loop continues), the error is logged, an
active agent is deactivated, and without an active agent the error screen
is rendered instead. -/
theorem loop_error_containment (environ : String → Option String)
    (env : CycleEnv) (s : AppState) (e : String)
    (hie : env.injectedError = some e) :
    ("ERROR in main lifecycle loop: " ++ e) ∈
      (manage_agent_lifecycle_cycle environ env s).1.log ∧
    (s.active_agent_instance.isSome = true →
      (manage_agent_lifecycle_cycle environ env s).1.active_agent_name = none ∧
      (manage_agent_lifecycle_cycle environ env s).1.active_agent_instance = none ∧
      (manage_agent_lifecycle_cycle environ env s).1.active_agent_task = none ∧
      (manage_agent_lifecycle_cycle environ env s).1.current_battle_instance = none) ∧
    (s.active_agent_instance = none →
      (manage_agent_lifecycle_cycle environ env s).1.current_display_html =
        create_error_html ("Error in lifecycle manager: " ++ e)) ∧
    (manage_agent_lifecycle_cycle environ env s).2 = 10 + REFRESH_INTERVAL_SECONDS := by
  unfold manage_agent_lifecycle_cycle
  rw [hie]
  cases hii : s.active_agent_instance with
  | none =>
    refine ⟨by simp [hii], ?_, by simp [hii], by simp [hii]⟩
    intro hs
    simp at hs
  | some a =>
    refine ⟨?_, by simp [hii], ?_, by simp [hii]⟩
    · simp [hii, deactivate_current_agent]
    · intro hs
      simp at hs

/-- C10: whenever a battle is monitored at a cycle boundary, it carries a
non-empty battle tag and an agent instance is active: this invariant
holds initially and is preserved by every lifecycle cycle under every
environment (the tracked battle is only set by detection, which requires
an active agent and a truthy tag, and both references are cleared together
by deactivation). -/
theorem battle_monitoring_invariant :
    Inv initial_state ∧
    ∀ (environ : String → Option String) (env : CycleEnv) (s : AppState),
      Inv s → Inv (manage_agent_lifecycle_cycle environ env s).1 := by
  constructor
  · intro b hb
    simp [initial_state] at hb
  · intro environ env s hInv
    unfold manage_agent_lifecycle_cycle
    cases hie : env.injectedError with
    | some e =>
      cases hii : s.active_agent_instance with
      | some a => simp [hii, Inv]
      | none =>
        have hb : s.current_battle_instance = none := by
          cases hbc : s.current_battle_instance with
          | none => rfl
          | some b =>
            have := (hInv b hbc).2
            rw [hii] at this
            simp at this
        intro bb hbb
        simp [hii, hb] at hbb
    | none =>
      cases hii : s.active_agent_instance with
      | none =>
        have hb : s.current_battle_instance = none := by
          cases hbc : s.current_battle_instance with
          | none => rfl
          | some b =>
            have := (hInv b hbc).2
            rw [hii] at this
            simp at this
        simp only [hii]
        by_cases hav : AVAILABLE_AGENT_NAMES environ = []
        · intro bb hbb
          simp [select_and_activate_new_agent, hav, hb] at hbb
        · cases hact : env.activationResult with
          | ok u =>
            intro bb hbb
            simp only [select_and_activate_new_agent, hav] at hbb ⊢
            simp [hact, hb] at hbb
          | error e =>
            intro bb hbb
            simp only [select_and_activate_new_agent, hav] at hbb ⊢
            simp [hact, hb] at hbb
      | some a =>
        simp only [hii]
        refine lifecycle_state2_inv rfl ?_
        intro bb hbb
        simp only [AppState.current_battle_instance] at hbb
        exact ⟨(hInv bb hbb).1, by simp⟩

/-! Witnesses. -/

/-- Witness for C1 with an agent already active: the cycle keeps that very
agent (or clears it), never installing a second one. -/
theorem single_session_invariant_witness :
    (manage_agent_lifecycle_cycle environ_pw env_base state_listening).1.active_agent_instance
        = none ∨
    (manage_agent_lifecycle_cycle environ_pw env_base state_listening).1.active_agent_instance
        = some { agent_listening with battles := env_base.battles } :=
  (single_session_invariant environ_pw env_base state_listening).1 agent_listening rfl

/-- Witness for C2 at the cycle that first detects battle-42. -/
theorem transition_boundedness_witness :
    (manage_agent_lifecycle_cycle environ_pw env_battle state_listening).1.active_agent_instance
        = some { agent_listening with battles := env_battle.battles } ∧
    (manage_agent_lifecycle_cycle environ_pw env_battle state_listening).1.current_battle_instance
        = some battle42 ∧
    (manage_agent_lifecycle_cycle environ_pw env_battle state_listening).2 =
      REFRESH_INTERVAL_SECONDS :=
  (transition_boundedness environ_pw env_battle state_listening
      (by intro b hb; simp [state_listening] at hb)).2
    agent_listening battle42 rfl rfl rfl rfl
    ⟨by decide, by decide⟩ (by decide)

/-- Witness for C4 with activation raising boom from the initial state. -/
theorem activation_failure_leaves_idle_witness :
    (manage_agent_lifecycle_cycle environ_pw env_actfail initial_state).1.current_display_html
        = create_error_html ("Failed to activate agent " ++
          random_choice (AVAILABLE_AGENT_NAMES environ_pw) env_actfail.randomIdx ++
          ": " ++ "boom") ∧
    (manage_agent_lifecycle_cycle environ_pw env_actfail initial_state).1.active_agent_name
        = none ∧
    (manage_agent_lifecycle_cycle environ_pw env_actfail initial_state).1.active_agent_instance
        = none ∧
    (manage_agent_lifecycle_cycle environ_pw env_actfail initial_state).1.active_agent_task
        = none ∧
    (manage_agent_lifecycle_cycle environ_pw env_actfail initial_state).2 = 10 :=
  activation_failure_leaves_idle environ_pw env_actfail initial_state "boom"
    rfl rfl (by decide) rfl

/-- Witness for C5: the draw lands in the available set when one password
is set, and with no passwords set the cycle renders the error screen,
creates no session, and retries after 10 seconds. -/
theorem agent_selection_policy_witness :
    random_choice (AVAILABLE_AGENT_NAMES environ_pw) env_base.randomIdx ∈
      AVAILABLE_AGENT_NAMES environ_pw ∧
    ((manage_agent_lifecycle_cycle environ_missing env_base initial_state).1.current_display_html
        = create_error_html "No agents available (check password env vars)." ∧
     (manage_agent_lifecycle_cycle environ_missing env_base initial_state).1.active_agent_name
        = initial_state.active_agent_name ∧
     (manage_agent_lifecycle_cycle environ_missing env_base initial_state).1.active_agent_instance
        = none ∧
     (manage_agent_lifecycle_cycle environ_missing env_base initial_state).1.active_agent_task
        = initial_state.active_agent_task ∧
     (manage_agent_lifecycle_cycle environ_missing env_base initial_state).2 = 10) :=
  ⟨(agent_selection_policy environ_pw env_base initial_state).1 (by decide),
   (agent_selection_policy environ_missing env_base initial_state).2.2 (by decide) rfl rfl⟩

/-- Witness for C7: battle-42 is tracked but the external dict no longer
holds it, so the cycle deactivates and logs the loss distinctly. -/
theorem match_lost_triggers_draining_witness :
    (manage_agent_lifecycle_cycle environ_pw env_base state_inmatch).1.active_agent_name
        = none ∧
    (manage_agent_lifecycle_cycle environ_pw env_base state_inmatch).1.active_agent_instance
        = none ∧
    (manage_agent_lifecycle_cycle environ_pw env_base state_inmatch).1.active_agent_task
        = none ∧
    (manage_agent_lifecycle_cycle environ_pw env_base state_inmatch).1.current_battle_instance
        = none ∧
    ("State 2a WARNING: Battle object for " ++ battle42.battle_tag ++ " MISSING! Deactivating.")
      ∈ (manage_agent_lifecycle_cycle environ_pw env_base state_inmatch).1.log ∧
    ("Lifecycle: Deactivating agent " ++ state_inmatch.active_agent_name.getD "None" ++
        " (Reason: " ++ "battle_object_missing" ++ ")...")
      ∈ (manage_agent_lifecycle_cycle environ_pw env_base state_inmatch).1.log ∧
    (manage_agent_lifecycle_cycle environ_pw env_base state_inmatch).1.current_display_html
        = create_idle_html "Resetting Agent" "Preparing for next selection..." ∧
    (manage_agent_lifecycle_cycle environ_pw env_base state_inmatch).2 = 0 :=
  match_lost_triggers_draining environ_pw env_base state_inmatch
    { agent_listening with battles := [("battle-42", battle42)] } battle42
    rfl rfl rfl rfl rfl

/-- Witness for C8 with the exception kaput injected while an agent is
active. -/
theorem loop_error_containment_witness :
    ("ERROR in main lifecycle loop: " ++ "kaput") ∈
      (manage_agent_lifecycle_cycle environ_pw env_err state_listening).1.log ∧
    (state_listening.active_agent_instance.isSome = true →
      (manage_agent_lifecycle_cycle environ_pw env_err state_listening).1.active_agent_name
          = none ∧
      (manage_agent_lifecycle_cycle environ_pw env_err state_listening).1.active_agent_instance
          = none ∧
      (manage_agent_lifecycle_cycle environ_pw env_err state_listening).1.active_agent_task
          = none ∧
      (manage_agent_lifecycle_cycle environ_pw env_err state_listening).1.current_battle_instance
          = none) ∧
    (state_listening.active_agent_instance = none →
      (manage_agent_lifecycle_cycle environ_pw env_err state_listening).1.current_display_html
          = create_error_html ("Error in lifecycle manager: " ++ "kaput")) ∧
    (manage_agent_lifecycle_cycle environ_pw env_err state_listening).2 =
      10 + REFRESH_INTERVAL_SECONDS :=
  loop_error_containment environ_pw env_err state_listening "kaput" rfl

/-- Witness for C10: the invariant after one detection cycle from the
listening state. -/
theorem battle_monitoring_invariant_witness :
    Inv (manage_agent_lifecycle_cycle environ_pw env_battle state_listening).1 :=
  battle_monitoring_invariant.2 environ_pw env_battle state_listening
    (by intro b hb; simp [state_listening] at hb)

end PokemonVcg
